import Mathlib

/-!
Verification development for the Teams message relay service
(`auth.py`, `graph.py`, `main.py`, `config.py`).

The Python code is shallowly embedded: the token cache becomes explicit
state passing, network interactions (the identity-provider exchange and
each page GET) become function parameters describing the remote's
responses, and every Python exception becomes an explicit error value
carrying the same message string the code builds, because the HTTP layer
(`main.py`) classifies errors by substring matching on those strings.
`datetime.fromisoformat` is external library code, so it is a parameter
`parse : String -> Option Int` (an ISO-8601 string either fails to parse
or parses to a point on a linear time line); the code's preprocessing
`s.replace('Z', '+00:00')` is embedded concretely.
-/

namespace TeamsRelay

/-- Python truthiness of an optional string parameter: `None` and the
empty string are falsy (`if chat_id:` etc. in the source). -/
def truthy : Option String → Bool
  | none => false
  | some s => s != ""

/-- Model of `s.replace('Z', '+00:00')`: every occurrence of the
character `Z` is expanded to `+00:00` (the pattern is a single character,
so Python's replace-all is exactly this per-character expansion). -/
def replaceZ (s : String) : String :=
  String.mk (s.toList.foldr
    (fun c acc => if c = 'Z' then '+' :: '0' :: '0' :: ':' :: '0' :: '0' :: acc else c :: acc) [])

/-- Boolean test: `pat` is a leading segment of `s` (character lists). -/
def leadsWith : List Char → List Char → Bool
  | [], _ => true
  | _ :: _, [] => false
  | a :: as, b :: bs => a == b && leadsWith as bs

/-- Boolean test for `pat in s` on character lists: `pat` occurs
contiguously somewhere in `s`. -/
def occursIn (pat : List Char) : List Char → Bool
  | [] => pat.isEmpty
  | c :: rest => leadsWith pat (c :: rest) || occursIn pat rest

/-- Model of Python's `pat in s` substring test on strings. -/
def strContains (s pat : String) : Bool :=
  occursIn pat.toList s.toList

/-- Model of `str.lower()` (sufficient for the ASCII messages involved). -/
def lowerStr (s : String) : String :=
  String.mk (s.toList.map Char.toLower)

/-- A single quote character as a string (used to render Python's
`str(KeyError("access_token"))`, which is `'access_token'`). -/
def squote : String := String.singleton (Char.ofNat 39)

/-- A message record. The fetcher reads only the `createdDateTime` field
(`msg.get("createdDateTime")`, absent modelled as `none`); the rest of
the JSON object is opaque and carried as `payload` so distinct messages
stay distinguishable. -/
structure Msg where
  createdDateTime : Option String
  payload : String
deriving DecidableEq

/-- Resolved configuration (`config.py`, class `Settings`), with the
source's defaults. -/
structure Settings where
  tenant_id : String
  client_id : String
  client_secret : String
  host : String := "0.0.0.0"
  port : Nat := 8000
  graph_api_base_url : String := "https://graph.microsoft.com/v1.0"
  auth_url_template : String := "https://login.microsoftonline.com/\x7btenant_id\x7d/oauth2/v2.0/token"
  graph_scope : String := "https://graph.microsoft.com/.default"

/-- State of `auth.TokenCache`: the `_token` slot (initially `None`) and
the `_expiry` time (initially `0`). Time is modelled as `Int`. -/
structure TokenCache where
  token : Option String
  expiry : Int
deriving DecidableEq

/-- `TokenCache.__init__`: empty slot, expiry 0. -/
def TokenCache.init : TokenCache := ⟨none, 0⟩

/-- `TokenCache.get_token` at time `now`: return the cached token if the
slot is truthy and `time.time() < self._expiry`, else `None`. -/
def TokenCache.get_token (c : TokenCache) (now : Int) : Option String :=
  match c.token with
  | some t => if t != "" && decide (now < c.expiry) then some t else none
  | none => none

/-- `TokenCache.set_token` at time `now`: store the token with
`self._expiry = time.time() + expires_in - 300` (5-minute safety buffer). -/
def TokenCache.set_token (_c : TokenCache) (now : Int) (token : String)
    (expires_in : Int) : TokenCache :=
  ⟨some token, now + expires_in - 300⟩

/-- JSON body of a successful (2xx) identity-provider response:
`access_token` (absent means the later `token_response["access_token"]`
raises `KeyError`) and optional `expires_in`. -/
structure AuthBody where
  access_token : Option String
  expires_in : Option Int
deriving DecidableEq

/-- Outcome of the network exchange with the identity provider, as seen
by `get_access_token`'s `try` block. -/
inductive ExchangeResp where
  | success (body : AuthBody)
  | httpError (status : Nat) (detail : String)
  | transportError (msg : String)
deriving DecidableEq

/-- `auth.get_access_token`, with the cache state, the current time and
the would-be exchange outcome passed explicitly. Returns the result
(token or exception message), the new cache state, and whether a network
exchange was performed. -/
def get_access_token (cache : TokenCache) (now : Int) (resp : ExchangeResp) :
    Except String String × TokenCache × Bool :=
  match cache.get_token now with
  | some tok => (.ok tok, cache, false)
  | none =>
    match resp with
    | .success body =>
      match body.access_token with
      | none =>
        (.error ("Failed to obtain access token: " ++ squote ++ "access_token" ++ squote),
         cache, true)
      | some tok =>
        let expires_in := body.expires_in.getD 3600
        (.ok tok, cache.set_token now tok expires_in, true)
    | .httpError status detail =>
      (.error ("Authentication failed: " ++ Nat.repr status ++ " - " ++ detail), cache, true)
    | .transportError m =>
      (.error ("Failed to obtain access token: " ++ m), cache, true)

/-- One step of a sequence of `get_access_token` calls: run the calls in
order threading the cache, and count how many performed an exchange. -/
def run_get_token_calls (cache : TokenCache) :
    List (Int × ExchangeResp) → TokenCache × Nat
  | [] => (cache, 0)
  | (t, r) :: rest =>
    let step := get_access_token cache t r
    let next := run_get_token_calls step.2.1 rest
    (next.1, (if step.2.2 then 1 else 0) + next.2)

/-- Parsed JSON body of a message-page response: the optional `value`
list (absent means `data.get("value", [])` yields `[]`), the optional
`@odata.nextLink` continuation URL, and a rendering of the body used as
the detail text of a `Graph API error` message. -/
structure PageData where
  value : Option (List Msg)
  nextLink : Option String
  detail : String
deriving DecidableEq

/-- Outcome of one page GET as seen by the pagination loop's `try`
block. -/
inductive PageResp where
  | ok (status : Nat) (data : PageData)
  | timeout
  | netError (msg : String)
deriving DecidableEq

/-- A network interaction performed by the fetcher, recorded in order:
the identity-provider exchange, or a GET of one page URL. -/
inductive NetOp where
  | authCall
  | pageGet (url : String)
deriving DecidableEq

/-- Python exceptions that escape `fetch_graph_messages`: `ValueError`
(parameter or timestamp validation) versus plain `Exception`, each with
its message. -/
inductive PyErr where
  | valueError (msg : String)
  | exn (msg : String)
deriving DecidableEq

/-- Failure of the pagination loop body, before the `except` clauses of
`fetch_graph_messages` translate it: an explicit `raise Exception(msg)`,
an `httpx.HTTPStatusError` from `raise_for_status`, a timeout, or a
transport error. -/
inductive LoopErr where
  | raised (msg : String)
  | httpStatus (code : Nat) (detail : String)
  | timeout
  | netErr (msg : String)
deriving DecidableEq

/-- Should a message survive the `since` filter (graph.py lines 92-104)?
A falsy `createdDateTime` (missing or empty) appends nothing; a parse
failure appends (fail-open); a parsed timestamp appends iff
`created_at >= since_datetime`. -/
def keepMsg (parse : String → Option Int) (sinceDT : Int) (m : Msg) : Bool :=
  match m.createdDateTime with
  | none => false
  | some s =>
    if s = "" then false
    else
      match parse (replaceZ s) with
      | some t => decide (sinceDT ≤ t)
      | none => true

/-- The `while next_link:` pagination loop of `fetch_graph_messages`,
with `fuel` bounding the number of iterations (`none` = fuel ran out,
i.e. the chain of continuation links is longer than `fuel`). `acc` is
`all_messages`, `tr` the network operations performed so far. -/
def pagesLoop (parse : String → Option Int) (sinceDT : Option Int)
    (net : String → PageResp) :
    Nat → String → List Msg → List NetOp →
    Option (Except LoopErr (List Msg) × List NetOp)
  | 0, _, _, _ => none
  | fuel + 1, url, acc, tr =>
    let tr := tr ++ [NetOp.pageGet url]
    match net url with
    | .timeout => some (.error .timeout, tr)
    | .netError m => some (.error (.netErr m), tr)
    | .ok status data =>
      if status = 401 then
        some (.error (.raised "Unauthorized: Invalid or expired token"), tr)
      else if status = 403 then
        some (.error (.raised ("Forbidden: Insufficient permissions to access messages. " ++
          "Required permissions: Channel.ReadBasic.All, ChannelMessage.Read.All, " ++
          "or Chat.Read.All")), tr)
      else if status = 404 then
        some (.error (.raised "Not found: Team, channel, or chat does not exist"), tr)
      else if status < 200 || 300 ≤ status then
        some (.error (.httpStatus status data.detail), tr)
      else
        let msgs := data.value.getD []
        let msgs := match sinceDT with
          | some d => msgs.filter (keepMsg parse d)
          | none => msgs
        let acc := acc ++ msgs
        match data.nextLink with
        | some nl => if nl != "" then pagesLoop parse sinceDT net fuel nl acc tr
                     else some (.ok acc, tr)
        | none => some (.ok acc, tr)

/-- The `except` clauses of `fetch_graph_messages` (lines 114-129):
timeouts, transport errors and status errors get fixed wrappings; an
explicitly raised `Exception` is re-raised unchanged when its message
contains `Failed to authenticate`, `Unauthorized` or `Forbidden`, and is
wrapped in `Failed to fetch messages:` otherwise. -/
def translate_loop_error : LoopErr → String
  | .timeout => "Request timeout: Microsoft Graph API did not respond in time"
  | .netErr m => "Network error while contacting Microsoft Graph API: " ++ m
  | .httpStatus code detail => "Graph API error: " ++ Nat.repr code ++ " - " ++ detail
  | .raised m =>
    if strContains m "Failed to authenticate" || strContains m "Unauthorized" ||
        strContains m "Forbidden" then m
    else "Failed to fetch messages: " ++ m

/-- Trace of the credential-acquisition step: one `authCall` when an
exchange was performed, nothing when served from cache. -/
def authTrace (didExchange : Bool) : List NetOp :=
  if didExchange then [NetOp.authCall] else []

/-- Lift the loop outcome into the fetcher's result, applying the
`except`-clause translation to loop failures. -/
def finish_loop (cache : TokenCache) :
    Option (Except LoopErr (List Msg) × List NetOp) →
    Option (Except PyErr (List Msg) × TokenCache × List NetOp)
  | none => none
  | some (.ok msgs, tr) => some (.ok msgs, cache, tr)
  | some (.error e, tr) => some (.error (.exn (translate_loop_error e)), cache, tr)

/-- Body of `fetch_graph_messages` after endpoint resolution: acquire a
token (wrapping any failure as `Failed to authenticate:`), parse `since`
if truthy (raising `ValueError` on parse failure), then drain pages. -/
def fetch_from_endpoint (parse : String → Option Int) (cache : TokenCache)
    (now : Int) (exch : ExchangeResp) (net : String → PageResp) (fuel : Nat)
    (since : Option String) (endpoint : String) :
    Option (Except PyErr (List Msg) × TokenCache × List NetOp) :=
  match get_access_token cache now exch with
  | (.error e, cache', didX) =>
    some (.error (.exn ("Failed to authenticate: " ++ e)), cache', authTrace didX)
  | (.ok _tok, cache', didX) =>
    let tr0 := authTrace didX
    if truthy since then
      match parse (replaceZ (since.getD "")) with
      | none =>
        some (.error (.valueError ("Invalid ISO 8601 timestamp format: " ++ since.getD "")),
              cache', tr0)
      | some d => finish_loop cache' (pagesLoop parse (some d) net fuel endpoint [] tr0)
    else
      finish_loop cache' (pagesLoop parse none net fuel endpoint [] tr0)

/-- `graph.fetch_graph_messages`: validate the target parameters, resolve
the endpoint URL, then run `fetch_from_endpoint`. The result carries the
returned messages or the escaping exception, the final cache state, and
the ordered network-operation trace. -/
def fetch_graph_messages (settings : Settings) (parse : String → Option Int)
    (cache : TokenCache) (now : Int) (exch : ExchangeResp)
    (net : String → PageResp) (fuel : Nat)
    (team_id channel_id chat_id since : Option String) :
    Option (Except PyErr (List Msg) × TokenCache × List NetOp) :=
  if truthy chat_id then
    if truthy team_id || truthy channel_id then
      some (.error (.valueError "Cannot specify both chat_id and team_id/channel_id"),
            cache, [])
    else
      fetch_from_endpoint parse cache now exch net fuel since
        (settings.graph_api_base_url ++ "/chats/" ++ chat_id.getD "" ++ "/messages")
  else if truthy team_id && truthy channel_id then
    fetch_from_endpoint parse cache now exch net fuel since
      (settings.graph_api_base_url ++ "/teams/" ++ team_id.getD "" ++ "/channels/" ++
        channel_id.getD "" ++ "/messages")
  else
    some (.error (.valueError "Must provide either chat_id OR both team_id and channel_id"),
          cache, [])

/-- Response body of a successful `GET /messages` (main.py,
`MessageResponse`): `count=len(messages)` and the messages themselves. -/
structure MessageResponse where
  count : Nat
  messages : List Msg
deriving DecidableEq

/-- The substring-based status mapping of `main.get_messages`
(lines 139-169) applied to a generic `Exception`'s message. -/
def map_error_status (m : String) : Nat :=
  if strContains m "Unauthorized" || strContains m "Invalid or expired token" then 401
  else if strContains m "Forbidden" || strContains m "Insufficient permissions" then 403
  else if strContains m "Not found" then 404
  else if strContains (lowerStr m) "timeout" then 504
  else 500

/-- The `detail` string the same mapping attaches to the HTTP error. -/
def map_error_detail (m : String) : String :=
  if strContains m "Unauthorized" || strContains m "Invalid or expired token" then m
  else if strContains m "Forbidden" || strContains m "Insufficient permissions" then m
  else if strContains m "Not found" then m
  else if strContains (lowerStr m) "timeout" then
    "Gateway Timeout: Request to Microsoft Graph API timed out"
  else "Internal server error: " ++ m

/-- `main.get_messages`: the HTTP boundary. Parameter validation raises
`HTTPException(400, ...)`; a `ValueError` from the fetcher maps to 400
with its message; any other `Exception` goes through the substring-based
status mapping. The error side carries `(status, detail)`. -/
def get_messages (settings : Settings) (parse : String → Option Int)
    (cache : TokenCache) (now : Int) (exch : ExchangeResp)
    (net : String → PageResp) (fuel : Nat)
    (team_id channel_id chat_id since : Option String) :
    Option (Except (Nat × String) MessageResponse) :=
  if truthy chat_id && (truthy team_id || truthy channel_id) then
    some (.error (400, "Cannot specify both chat_id and team_id/channel_id. " ++
      "Use chat_id for chat messages OR team_id + channel_id for channel messages."))
  else if !truthy chat_id && !(truthy team_id && truthy channel_id) then
    some (.error (400, "Must provide either chat_id OR both team_id and channel_id"))
  else if (truthy team_id && !truthy channel_id) || (truthy channel_id && !truthy team_id) then
    some (.error (400, "Both team_id and channel_id are required for channel messages"))
  else
    match fetch_graph_messages settings parse cache now exch net fuel
        team_id channel_id chat_id since with
    | none => none
    | some (.ok msgs, _, _) => some (.ok ⟨msgs.length, msgs⟩)
    | some (.error (.valueError m), _, _) => some (.error (400, m))
    | some (.error (.exn m), _, _) => some (.error (map_error_status m, map_error_detail m))

/-! Concrete fixtures used by witnesses and counterexamples. -/

/-- A small concrete stand-in for `datetime.fromisoformat`, defined on
the normalized (`Z` already expanded) timestamps the examples use. -/
def sampleParse : String → Option Int := fun s =>
  if s = "2024-06-01T00:00:00+00:00" then some 20240601
  else if s = "2024-05-01T00:00:00+00:00" then some 20240501
  else if s = "2024-07-01T00:00:00+00:00" then some 20240701
  else none

/-- Concrete settings (defaults from `config.py`). -/
def sampleSettings : Settings := { tenant_id := "t", client_id := "c", client_secret := "s" }

/-- The endpoint URL the fetcher builds for `chat_id = "c1"` under the
default base URL. -/
def ep1 : String := "https://graph.microsoft.com/v1.0/chats/c1/messages"

/-- A message created before the example `since` boundary. -/
def msgMay : Msg := ⟨some "2024-05-01T00:00:00Z", "m-may"⟩

/-- A message created after the example `since` boundary. -/
def msgJul : Msg := ⟨some "2024-07-01T00:00:00Z", "m-jul"⟩

/-- A message whose `createdDateTime` field is missing. -/
def msgNoTs : Msg := ⟨none, "m-missing-ts"⟩

/-- A message whose `createdDateTime` is present but unparseable. -/
def msgBadTs : Msg := ⟨some "garbage", "m-bad-ts"⟩

/-- A successful identity-provider exchange producing token `tok`. -/
def sampleExch : ExchangeResp := .success ⟨some "tok", some 3600⟩

/-! Chain predicates describing a remote whose pages form a finite
continuation-linked list, and the corresponding pagination-loop runs. -/

/-- `isChain net u pss` : starting at URL `u`, the remote serves the page
contents `pss` as a chain of 2xx responses linked by truthy continuation
URLs, the last page carrying no continuation link. -/
def isChain (net : String → PageResp) : String → List (List Msg) → Prop
  | _, [] => False
  | u, [ps] => ∃ d, net u = .ok 200 ⟨some ps, none, d⟩
  | u, ps :: rest => ∃ u' d, u' ≠ "" ∧ net u = .ok 200 ⟨some ps, some u', d⟩ ∧
      isChain net u' rest

/-- `chainThen401 net u pss` : the remote serves the pages `pss` as a
linked chain of 2xx responses and then answers the next continuation URL
with HTTP 401. -/
def chainThen401 (net : String → PageResp) : String → List (List Msg) → Prop
  | u, [] => ∃ pd, net u = .ok 401 pd
  | u, ps :: rest => ∃ u' d, u' ≠ "" ∧ net u = .ok 200 ⟨some ps, some u', d⟩ ∧
      chainThen401 net u' rest

theorem truthy_some_ne {s : String} (h : s ≠ "") : truthy (some s) = true := by
  simp [truthy, h]

/-- Draining a finite chain with no `since` filter appends exactly the
concatenation of the chain's pages, in order, touching one URL per page. -/
theorem pagesLoop_chain (parse : String → Option Int) (net : String → PageResp) :
    ∀ (pss : List (List Msg)) (u : String) (acc : List Msg) (tr : List NetOp) (fuel : Nat),
      isChain net u pss → pss.length ≤ fuel →
      ∃ ops, pagesLoop parse none net fuel u acc tr =
          some (.ok (acc ++ pss.flatten), tr ++ ops) ∧ ops.length = pss.length
  | [], _, _, _, _, h, _ => absurd h (by simp [isChain])
  | [ps], u, acc, tr, fuel, h, hf => by
    obtain ⟨d, hnet⟩ := h
    obtain ⟨f, rfl⟩ : ∃ f, fuel = f + 1 := ⟨fuel - 1, by simp at hf; omega⟩
    refine ⟨[NetOp.pageGet u], ?_, rfl⟩
    simp [pagesLoop, hnet]
  | ps :: ps' :: rest, u, acc, tr, fuel, h, hf => by
    obtain ⟨u', d, hne, hnet, hchain⟩ := h
    obtain ⟨f, rfl⟩ : ∃ f, fuel = f + 1 := ⟨fuel - 1, by simp at hf; omega⟩
    obtain ⟨ops, heq, hlen⟩ :=
      pagesLoop_chain parse net (ps' :: rest) u' (acc ++ ps) (tr ++ [NetOp.pageGet u]) f
        hchain (by simp at hf ⊢; omega)
    refine ⟨NetOp.pageGet u :: ops, ?_, by simp [hlen]⟩
    simp only [pagesLoop, hnet]
    norm_num [hne, heq]

/-- Draining a chain that ends in a 401 page fails with the
`Unauthorized` exception after touching exactly the chain's pages plus
the 401 page, for any `since` filter. -/
theorem pagesLoop_chain401 (parse : String → Option Int) (sinceDT : Option Int)
    (net : String → PageResp) :
    ∀ (pss : List (List Msg)) (u : String) (acc : List Msg) (tr : List NetOp) (fuel : Nat),
      chainThen401 net u pss → pss.length + 1 ≤ fuel →
      ∃ ops, pagesLoop parse sinceDT net fuel u acc tr =
          some (.error (.raised "Unauthorized: Invalid or expired token"), tr ++ ops) ∧
        ops.length = pss.length + 1
  | [], u, acc, tr, fuel, h, hf => by
    obtain ⟨pd, hnet⟩ := h
    obtain ⟨f, rfl⟩ : ∃ f, fuel = f + 1 := ⟨fuel - 1, by simp at hf; omega⟩
    refine ⟨[NetOp.pageGet u], ?_, rfl⟩
    simp [pagesLoop, hnet]
  | ps :: rest, u, acc, tr, fuel, h, hf => by
    obtain ⟨u', d, hne, hnet, hchain⟩ := h
    obtain ⟨f, rfl⟩ : ∃ f, fuel = f + 1 := ⟨fuel - 1, by simp at hf; omega⟩
    obtain ⟨ops, heq, hlen⟩ :=
      pagesLoop_chain401 parse sinceDT net rest u'
        (acc ++ (match sinceDT with
          | some dd => ps.filter (keepMsg parse dd)
          | none => ps)) (tr ++ [NetOp.pageGet u]) f hchain (by simp at hf ⊢; omega)
    refine ⟨NetOp.pageGet u :: ops, ?_, by simp [hlen]⟩
    simp only [pagesLoop, hnet]
    norm_num [hne, heq]

/-- Target validation: a chat target with a nonempty `chat_id` and no
team/channel resolves to the chats endpoint. -/
theorem fetch_chat_endpoint (settings : Settings) (parse : String → Option Int)
    (cache : TokenCache) (now : Int) (exch : ExchangeResp) (net : String → PageResp)
    (fuel : Nat) (cid : String) (since : Option String) (h : cid ≠ "") :
    fetch_graph_messages settings parse cache now exch net fuel none none (some cid) since =
      fetch_from_endpoint parse cache now exch net fuel since
        (settings.graph_api_base_url ++ "/chats/" ++ cid ++ "/messages") := by
  simp [fetch_graph_messages, truthy, h]

/-- When credential acquisition fails, the fetcher re-raises the failure
wrapped as `Failed to authenticate:`. -/
theorem fetch_from_endpoint_auth_error (parse : String → Option Int) (cache : TokenCache)
    (now : Int) (exch : ExchangeResp) (net : String → PageResp) (fuel : Nat)
    (since : Option String) (ep : String) (e : String) (cache' : TokenCache) (b : Bool)
    (hauth : get_access_token cache now exch = (.error e, cache', b)) :
    fetch_from_endpoint parse cache now exch net fuel since ep =
      some (.error (.exn ("Failed to authenticate: " ++ e)), cache', authTrace b) := by
  simp [fetch_from_endpoint, hauth]

/-- With a token in hand and no `since`, the fetcher is the pagination
loop started at the endpoint. -/
theorem fetch_from_endpoint_ok_none (parse : String → Option Int) (cache : TokenCache)
    (now : Int) (exch : ExchangeResp) (net : String → PageResp) (fuel : Nat)
    (ep tok : String) (cache' : TokenCache) (b : Bool)
    (hauth : get_access_token cache now exch = (.ok tok, cache', b)) :
    fetch_from_endpoint parse cache now exch net fuel none ep =
      finish_loop cache' (pagesLoop parse none net fuel ep [] (authTrace b)) := by
  simp [fetch_from_endpoint, hauth, truthy]

/-- With a token in hand and a truthy `since` that parses, the fetcher is
the pagination loop with the parsed filter boundary. -/
theorem fetch_from_endpoint_ok_since (parse : String → Option Int) (cache : TokenCache)
    (now : Int) (exch : ExchangeResp) (net : String → PageResp) (fuel : Nat)
    (ep tok s : String) (d : Int) (cache' : TokenCache) (b : Bool)
    (hauth : get_access_token cache now exch = (.ok tok, cache', b))
    (hs : s ≠ "") (hparse : parse (replaceZ s) = some d) :
    fetch_from_endpoint parse cache now exch net fuel (some s) ep =
      finish_loop cache' (pagesLoop parse (some d) net fuel ep [] (authTrace b)) := by
  simp [fetch_from_endpoint, hauth, truthy, hs, hparse]

/-- The HTTP boundary on a fetch that returns messages: 200 with
`count = len(messages)`. -/
theorem get_messages_chat_ok (settings : Settings) (parse : String → Option Int)
    (cache : TokenCache) (now : Int) (exch : ExchangeResp) (net : String → PageResp)
    (fuel : Nat) (cid : String) (since : Option String) (msgs : List Msg)
    (cache' : TokenCache) (tr : List NetOp) (h : cid ≠ "")
    (hf : fetch_graph_messages settings parse cache now exch net fuel
        none none (some cid) since = some (.ok msgs, cache', tr)) :
    get_messages settings parse cache now exch net fuel none none (some cid) since =
      some (.ok ⟨msgs.length, msgs⟩) := by
  simp [get_messages, truthy, h, hf]

/-- The HTTP boundary on a fetch that raises a generic `Exception`: the
substring-based status mapping is applied to the message. -/
theorem get_messages_chat_exn (settings : Settings) (parse : String → Option Int)
    (cache : TokenCache) (now : Int) (exch : ExchangeResp) (net : String → PageResp)
    (fuel : Nat) (cid : String) (since : Option String) (m : String)
    (cache' : TokenCache) (tr : List NetOp) (h : cid ≠ "")
    (hf : fetch_graph_messages settings parse cache now exch net fuel
        none none (some cid) since = some (.error (.exn m), cache', tr)) :
    get_messages settings parse cache now exch net fuel none none (some cid) since =
      some (.error (map_error_status m, map_error_detail m)) := by
  simp [get_messages, truthy, h, hf]

/-- A cache slot holding a nonempty token whose expiry lies strictly
after `t` serves the token at time `t`. -/
theorem get_token_of_valid (c : TokenCache) (t : Int) (tok : String)
    (h1 : c.token = some tok) (h2 : tok ≠ "") (h3 : t < c.expiry) :
    c.get_token t = some tok := by
  simp [TokenCache.get_token, h1, bne_iff_ne, h2, h3]

/-- A `get_access_token` call that finds a cached token returns it
unchanged, leaves the cache alone, and performs no exchange. -/
theorem get_access_token_hit (cache : TokenCache) (t : Int) (r : ExchangeResp) (tok : String)
    (h : cache.get_token t = some tok) :
    get_access_token cache t r = (.ok tok, cache, false) := by
  simp [get_access_token, h]

/-- A run of calls that are all served from the cache performs zero
exchanges and never changes the cache. -/
theorem run_calls_cached (cache : TokenCache) :
    ∀ (calls : List (Int × ExchangeResp)),
      (∀ p ∈ calls, ∃ tok, cache.get_token p.1 = some tok) →
      run_get_token_calls cache calls = (cache, 0)
  | [], _ => rfl
  | (t, r) :: rest, h => by
    obtain ⟨tok, htok⟩ := h (t, r) (by simp)
    have hr := run_calls_cached cache rest (fun p hp => h p (by simp [hp]))
    simp [run_get_token_calls, get_access_token_hit cache t r tok htok, hr]

/-- C4: an exchange returning `expires_in = X` is cached with expiry
`issued_at + X - 300`; a call at `issued_at + X - 301` returns the
cached token with no exchange; a call at `issued_at + X - 299` misses
the cache and performs a new exchange; an exchange response without
`expires_in` defaults to 3600 seconds. -/
theorem C4_expiry_boundary (cache : TokenCache) (now X : Int) (tok : String)
    (r2 : ExchangeResp) (hmiss : cache.get_token now = none) (htok : tok ≠ "") :
    get_access_token cache now (.success ⟨some tok, some X⟩) =
      (.ok tok, ⟨some tok, now + X - 300⟩, true) ∧
    get_access_token ⟨some tok, now + X - 300⟩ (now + X - 301) r2 =
      (.ok tok, ⟨some tok, now + X - 300⟩, false) ∧
    TokenCache.get_token ⟨some tok, now + X - 300⟩ (now + X - 299) = none ∧
    (get_access_token ⟨some tok, now + X - 300⟩ (now + X - 299) r2).2.2 = true ∧
    (get_access_token cache now (.success ⟨some tok, none⟩)).2.1 =
      ⟨some tok, now + 3600 - 300⟩ := by
  have hmiss299 : TokenCache.get_token ⟨some tok, now + X - 300⟩ (now + X - 299) = none := by
    simp [TokenCache.get_token, show ¬(now + X - 299 < now + X - 300) from by omega]
  refine ⟨?_, ?_, hmiss299, ?_, ?_⟩
  · simp [get_access_token, hmiss, TokenCache.set_token, Option.getD]
  · exact get_access_token_hit _ _ _ tok
      (get_token_of_valid _ _ tok rfl htok (show now + X - 301 < now + X - 300 from by omega))
  · cases r2 with
    | success body => cases hb : body.access_token <;> simp [get_access_token, hmiss299, hb]
    | httpError s d => simp [get_access_token, hmiss299]
    | transportError m => simp [get_access_token, hmiss299]
  · simp [get_access_token, hmiss, TokenCache.set_token, Option.getD]

/-- C4 witness: a fresh cache at time 0 and an exchange with
`expires_in = 1000`. -/
theorem C4_expiry_boundary_witness :
    TokenCache.init.get_token 0 = none ∧ "tok" ≠ "" ∧
    (get_access_token TokenCache.init 0 (.success ⟨some "tok", some 1000⟩) =
      (.ok "tok", ⟨some "tok", 0 + 1000 - 300⟩, true) ∧
    get_access_token ⟨some "tok", 0 + 1000 - 300⟩ (0 + 1000 - 301) sampleExch =
      (.ok "tok", ⟨some "tok", 0 + 1000 - 300⟩, false) ∧
    TokenCache.get_token ⟨some "tok", 0 + 1000 - 300⟩ (0 + 1000 - 299) = none ∧
    (get_access_token ⟨some "tok", 0 + 1000 - 300⟩ (0 + 1000 - 299) sampleExch).2.2 = true ∧
    (get_access_token TokenCache.init 0 (.success ⟨some "tok", none⟩)).2.1 =
      ⟨some "tok", 0 + 3600 - 300⟩) :=
  ⟨rfl, by decide, C4_expiry_boundary TokenCache.init 0 1000 "tok" sampleExch rfl (by decide)⟩

/-- C8: across a sequence of `get_token` calls whose later calls all fall
inside the validity window of the credential cached after the first
call, at most one exchange occurs; and any call served from the cache
performs no network call and leaves the cache unchanged. -/
theorem C8_at_most_one_exchange (cache : TokenCache) (t0 : Int) (r0 : ExchangeResp)
    (rest : List (Int × ExchangeResp))
    (h : ∀ p ∈ rest, ∃ tok,
      ((get_access_token cache t0 r0).2.1).token = some tok ∧ tok ≠ "" ∧
        p.1 < ((get_access_token cache t0 r0).2.1).expiry) :
    (run_get_token_calls cache ((t0, r0) :: rest)).2 ≤ 1 ∧
    (∀ t r tok, cache.get_token t = some tok →
      get_access_token cache t r = (.ok tok, cache, false)) := by
  constructor
  · have hr := run_calls_cached (get_access_token cache t0 r0).2.1 rest
      (fun p hp => by
        obtain ⟨tok, h1, h2, h3⟩ := h p hp
        exact ⟨tok, get_token_of_valid _ _ tok h1 h2 h3⟩)
    simp only [run_get_token_calls, hr]
    cases (get_access_token cache t0 r0).2.2 <;> simp
  · intro t r tok htok
    exact get_access_token_hit cache t r tok htok

/-- C8 witness: a fresh cache, a successful exchange at time 0, then two
further calls inside the 3300-second window. -/
theorem C8_at_most_one_exchange_witness :
    (∀ p ∈ [((100 : Int), ExchangeResp.httpError 500 "x"), ((200 : Int), sampleExch)],
      ∃ tok, ((get_access_token TokenCache.init 0 sampleExch).2.1).token = some tok ∧
        tok ≠ "" ∧ p.1 < ((get_access_token TokenCache.init 0 sampleExch).2.1).expiry) ∧
    (run_get_token_calls TokenCache.init
      ((0, sampleExch) :: [((100 : Int), ExchangeResp.httpError 500 "x"),
        ((200 : Int), sampleExch)])).2 ≤ 1 :=
  have h : ∀ p ∈ [((100 : Int), ExchangeResp.httpError 500 "x"), ((200 : Int), sampleExch)],
      ∃ tok, ((get_access_token TokenCache.init 0 sampleExch).2.1).token = some tok ∧
        tok ≠ "" ∧ p.1 < ((get_access_token TokenCache.init 0 sampleExch).2.1).expiry := by
    intro p hp
    simp only [List.mem_cons, List.mem_singleton] at hp
    rcases hp with h | h | h <;> first
      | (subst h; exact ⟨"tok", rfl, by decide, by decide⟩)
      | exact absurd h (by simp)
  ⟨h, (C8_at_most_one_exchange TokenCache.init 0 sampleExch _ h).1⟩

/-- C1 (amended): when a `since` filter is supplied and parses, a page
message whose `createdDateTime` parses is kept iff it is `>=` the parsed
boundary and one whose `createdDateTime` is present but unparseable is
kept fail-open, but a message whose `createdDateTime` is missing (or
empty) is dropped, not kept. -/
theorem C1_since_filter_policy (settings : Settings) (parse : String → Option Int)
    (cache : TokenCache) (now : Int) (exch : ExchangeResp) (net : String → PageResp)
    (fuel : Nat) (cid tok sinceStr d : String) (S : Int) (ms : List Msg)
    (cache' : TokenCache) (b : Bool) (hcid : cid ≠ "")
    (hauth : get_access_token cache now exch = (.ok tok, cache', b))
    (hs : sinceStr ≠ "") (hparse : parse (replaceZ sinceStr) = some S)
    (hnet : net (settings.graph_api_base_url ++ "/chats/" ++ cid ++ "/messages") =
      .ok 200 ⟨some ms, none, d⟩)
    (hfuel : 1 ≤ fuel) :
    fetch_graph_messages settings parse cache now exch net fuel
        none none (some cid) (some sinceStr) =
      some (.ok (ms.filter (keepMsg parse S)), cache', authTrace b ++
        [NetOp.pageGet (settings.graph_api_base_url ++ "/chats/" ++ cid ++ "/messages")]) ∧
    (∀ m, keepMsg parse S m = true ↔
      ∃ s, m.createdDateTime = some s ∧ s ≠ "" ∧
        (parse (replaceZ s) = none ∨ ∃ t, parse (replaceZ s) = some t ∧ S ≤ t)) := by
  obtain ⟨f, rfl⟩ : ∃ f, fuel = f + 1 := ⟨fuel - 1, by omega⟩
  constructor
  · rw [fetch_chat_endpoint settings parse cache now exch net (f + 1) cid (some sinceStr) hcid,
      fetch_from_endpoint_ok_since parse cache now exch net (f + 1) _ tok sinceStr S
        cache' b hauth hs hparse]
    simp only [pagesLoop, hnet]
    simp [finish_loop]
  · intro m
    cases hm : m.createdDateTime with
    | none => simp [keepMsg, hm]
    | some s =>
      by_cases hse : s = ""
      · subst hse
        simp [keepMsg, hm]
      · cases hp : parse (replaceZ s) with
        | none => simp [keepMsg, hm, hse, hp]
        | some t => simp [keepMsg, hm, hse, hp]

/-- A remote serving a single page holding one message of each
timestamp kind, used by the C1 witness. -/
def netSince : String → PageResp := fun u =>
  if u = ep1 then .ok 200 ⟨some [msgMay, msgJul, msgNoTs, msgBadTs], none, ""⟩
  else .timeout

/-- C1 witness: with `since = 2024-06-01`, the May message is excluded,
the July and unparseable-timestamp messages are kept, and the
missing-timestamp message is dropped. -/
theorem C1_since_filter_policy_witness :
    "c1" ≠ "" ∧ "2024-06-01T00:00:00Z" ≠ "" ∧
    sampleParse (replaceZ "2024-06-01T00:00:00Z") = some 20240601 ∧
    (fetch_graph_messages sampleSettings sampleParse TokenCache.init 0 sampleExch netSince 1
        none none (some "c1") (some "2024-06-01T00:00:00Z") =
      some (.ok ([msgMay, msgJul, msgNoTs, msgBadTs].filter (keepMsg sampleParse 20240601)),
        (⟨some "tok", 3300⟩ : TokenCache), authTrace true ++
        [NetOp.pageGet (sampleSettings.graph_api_base_url ++ "/chats/" ++ "c1" ++
          "/messages")]) ∧
    (∀ m, keepMsg sampleParse 20240601 m = true ↔
      ∃ s, m.createdDateTime = some s ∧ s ≠ "" ∧
        (sampleParse (replaceZ s) = none ∨
          ∃ t, sampleParse (replaceZ s) = some t ∧ (20240601 : Int) ≤ t))) :=
  ⟨by decide, by decide, by rfl,
    C1_since_filter_policy sampleSettings sampleParse TokenCache.init 0 sampleExch netSince 1
      "c1" "tok" "2024-06-01T00:00:00Z" "" 20240601 [msgMay, msgJul, msgNoTs, msgBadTs]
      ⟨some "tok", 3300⟩ true (by decide) rfl (by decide) (by rfl) (by rfl) (by decide)⟩

/-- C1 counterexample: the page holds exactly one message, whose
`createdDateTime` is missing; the claim says it is kept (fail-open), but
the fetch returns an empty aggregate — the message was dropped. -/
theorem C1_since_filter_policy_counterexample :
    (fetch_graph_messages sampleSettings sampleParse TokenCache.init 0 sampleExch
        (fun u => if u = ep1 then .ok 200 ⟨some [msgNoTs], none, ""⟩ else .timeout) 1
        none none (some "c1") (some "2024-06-01T00:00:00Z") =
      some (.ok [], (⟨some "tok", 3300⟩ : TokenCache),
        [NetOp.authCall, NetOp.pageGet ep1])) ∧
    msgNoTs.createdDateTime = none := by
  exact ⟨by rfl, by rfl⟩

/-- C3 (amended): a malformed `since` string fails with
`ValueError("Invalid ISO 8601 timestamp format: ...")` before any page
fetch — the network trace contains no page GET — but only after the
credential acquisition step, not before it. -/
theorem C3_invalid_since_after_credential (settings : Settings) (parse : String → Option Int)
    (cache : TokenCache) (now : Int) (exch : ExchangeResp) (net : String → PageResp)
    (fuel : Nat) (cid sinceStr tok : String) (cache' : TokenCache) (b : Bool)
    (hcid : cid ≠ "")
    (hauth : get_access_token cache now exch = (.ok tok, cache', b))
    (hs : sinceStr ≠ "") (hbad : parse (replaceZ sinceStr) = none) :
    fetch_graph_messages settings parse cache now exch net fuel
        none none (some cid) (some sinceStr) =
      some (.error (.valueError ("Invalid ISO 8601 timestamp format: " ++ sinceStr)),
        cache', authTrace b) ∧
    (∀ u, NetOp.pageGet u ∉ authTrace b) := by
  constructor
  · rw [fetch_chat_endpoint settings parse cache now exch net fuel cid (some sinceStr) hcid]
    simp [fetch_from_endpoint, hauth, truthy, hs, hbad]
  · intro u
    cases b <;> simp [authTrace]

/-- C3 witness: `since = "not-a-date"` with a cache-miss credential
acquisition; the failure is the `ValueError` and the trace holds only
the exchange. -/
theorem C3_invalid_since_after_credential_witness :
    "c1" ≠ "" ∧ "not-a-date" ≠ "" ∧ sampleParse (replaceZ "not-a-date") = none ∧
    (fetch_graph_messages sampleSettings sampleParse TokenCache.init 0 sampleExch
        (fun _ => .timeout) 1 none none (some "c1") (some "not-a-date") =
      some (.error (.valueError ("Invalid ISO 8601 timestamp format: " ++ "not-a-date")),
        (⟨some "tok", 3300⟩ : TokenCache), authTrace true) ∧
    (∀ u, NetOp.pageGet u ∉ authTrace true)) :=
  ⟨by decide, by decide, by rfl,
    C3_invalid_since_after_credential sampleSettings sampleParse TokenCache.init 0 sampleExch
      (fun _ => .timeout) 1 "c1" "not-a-date" "tok" ⟨some "tok", 3300⟩ true
      (by decide) rfl (by decide) (by rfl)⟩

/-- C3 counterexample: with an empty cache and a malformed `since`, the
fetch does fail with the `ValueError`, but its network trace already
contains the identity-provider exchange — the failure did not happen
before any network call. -/
theorem C3_invalid_since_after_credential_counterexample :
    (fetch_graph_messages sampleSettings sampleParse TokenCache.init 0 sampleExch
        (fun _ => .timeout) 1 none none (some "c1") (some "not-a-date") =
      some (.error (.valueError "Invalid ISO 8601 timestamp format: not-a-date"),
        (⟨some "tok", 3300⟩ : TokenCache), [NetOp.authCall])) ∧
    ([NetOp.authCall] ≠ ([] : List NetOp)) := by
  exact ⟨by rfl, by decide⟩

/-- C2 (amended): at the `GET /messages` boundary, page-level failures
map as claimed — a 401 page to HTTP 401, a 403 page to 403, a 404 page
to 404, a page timeout to 504, any other non-2xx page status (whose
rendered message contains none of the matched substrings) to 500 — but a
failure of the credential exchange with the identity provider is NOT
mapped to 401: its `Failed to authenticate:` message matches none of the
substrings the boundary looks for (unless the provider's detail happens
to contain one), so it maps to 500. -/
theorem C2_error_status_mapping (settings : Settings) (parse : String → Option Int)
    (cache : TokenCache) (now : Int) (fuel : Nat) (cid : String)
    (hcid : cid ≠ "") (hfuel : 1 ≤ fuel) :
    (∀ (exch : ExchangeResp) (net : String → PageResp) (since : Option String)
        (em : String) (cache' : TokenCache) (b : Bool),
      get_access_token cache now exch = (.error em, cache', b) →
      strContains ("Failed to authenticate: " ++ em) "Unauthorized" = false →
      strContains ("Failed to authenticate: " ++ em) "Invalid or expired token" = false →
      strContains ("Failed to authenticate: " ++ em) "Forbidden" = false →
      strContains ("Failed to authenticate: " ++ em) "Insufficient permissions" = false →
      strContains ("Failed to authenticate: " ++ em) "Not found" = false →
      strContains (lowerStr ("Failed to authenticate: " ++ em)) "timeout" = false →
      get_messages settings parse cache now exch net fuel none none (some cid) since =
        some (.error (500, "Internal server error: " ++ ("Failed to authenticate: " ++ em)))) ∧
    (∀ (exch : ExchangeResp) (net : String → PageResp) (tok : String)
        (cache' : TokenCache) (b : Bool) (pd : PageData),
      get_access_token cache now exch = (.ok tok, cache', b) →
      net (settings.graph_api_base_url ++ "/chats/" ++ cid ++ "/messages") = .ok 401 pd →
      get_messages settings parse cache now exch net fuel none none (some cid) none =
        some (.error (401, "Unauthorized: Invalid or expired token"))) ∧
    (∀ (exch : ExchangeResp) (net : String → PageResp) (tok : String)
        (cache' : TokenCache) (b : Bool) (pd : PageData),
      get_access_token cache now exch = (.ok tok, cache', b) →
      net (settings.graph_api_base_url ++ "/chats/" ++ cid ++ "/messages") = .ok 403 pd →
      get_messages settings parse cache now exch net fuel none none (some cid) none =
        some (.error (403, "Forbidden: Insufficient permissions to access messages. Required permissions: Channel.ReadBasic.All, ChannelMessage.Read.All, or Chat.Read.All"))) ∧
    (∀ (exch : ExchangeResp) (net : String → PageResp) (tok : String)
        (cache' : TokenCache) (b : Bool) (pd : PageData),
      get_access_token cache now exch = (.ok tok, cache', b) →
      net (settings.graph_api_base_url ++ "/chats/" ++ cid ++ "/messages") = .ok 404 pd →
      get_messages settings parse cache now exch net fuel none none (some cid) none =
        some (.error (404,
          "Failed to fetch messages: Not found: Team, channel, or chat does not exist"))) ∧
    (∀ (exch : ExchangeResp) (net : String → PageResp) (tok : String)
        (cache' : TokenCache) (b : Bool),
      get_access_token cache now exch = (.ok tok, cache', b) →
      net (settings.graph_api_base_url ++ "/chats/" ++ cid ++ "/messages") = .timeout →
      get_messages settings parse cache now exch net fuel none none (some cid) none =
        some (.error (504, "Gateway Timeout: Request to Microsoft Graph API timed out"))) ∧
    (∀ (exch : ExchangeResp) (net : String → PageResp) (tok : String)
        (cache' : TokenCache) (b : Bool) (s : Nat) (pd : PageData),
      get_access_token cache now exch = (.ok tok, cache', b) →
      net (settings.graph_api_base_url ++ "/chats/" ++ cid ++ "/messages") = .ok s pd →
      s ≠ 401 → s ≠ 403 → s ≠ 404 → (s < 200 ∨ 300 ≤ s) →
      strContains ("Graph API error: " ++ Nat.repr s ++ " - " ++ pd.detail)
        "Unauthorized" = false →
      strContains ("Graph API error: " ++ Nat.repr s ++ " - " ++ pd.detail)
        "Invalid or expired token" = false →
      strContains ("Graph API error: " ++ Nat.repr s ++ " - " ++ pd.detail)
        "Forbidden" = false →
      strContains ("Graph API error: " ++ Nat.repr s ++ " - " ++ pd.detail)
        "Insufficient permissions" = false →
      strContains ("Graph API error: " ++ Nat.repr s ++ " - " ++ pd.detail)
        "Not found" = false →
      strContains (lowerStr ("Graph API error: " ++ Nat.repr s ++ " - " ++ pd.detail))
        "timeout" = false →
      get_messages settings parse cache now exch net fuel none none (some cid) none =
        some (.error (500, "Internal server error: " ++
          ("Graph API error: " ++ Nat.repr s ++ " - " ++ pd.detail)))) := by
  obtain ⟨f, rfl⟩ : ∃ f, fuel = f + 1 := ⟨fuel - 1, by omega⟩
  refine ⟨?_, ?_, ?_, ?_, ?_, ?_⟩
  · intro exch net since em cache' b hauth h1 h2 h3 h4 h5 h6
    have hfetch : fetch_graph_messages settings parse cache now exch net (f + 1)
        none none (some cid) since =
          some (.error (.exn ("Failed to authenticate: " ++ em)), cache', authTrace b) := by
      rw [fetch_chat_endpoint settings parse cache now exch net (f + 1) cid since hcid,
        fetch_from_endpoint_auth_error parse cache now exch net (f + 1) since _
          em cache' b hauth]
    rw [get_messages_chat_exn settings parse cache now exch net (f + 1) cid since _
      cache' _ hcid hfetch]
    simp [map_error_status, map_error_detail, h1, h2, h3, h4, h5, h6]
  · intro exch net tok cache' b pd hauth hnet
    have hloop : pagesLoop parse none net (f + 1)
        (settings.graph_api_base_url ++ "/chats/" ++ cid ++ "/messages") [] (authTrace b) =
          some (.error (.raised "Unauthorized: Invalid or expired token"), authTrace b ++
            [NetOp.pageGet (settings.graph_api_base_url ++ "/chats/" ++ cid ++ "/messages")]) := by
      simp [pagesLoop, hnet]
    have hfetch : fetch_graph_messages settings parse cache now exch net (f + 1)
        none none (some cid) none =
          some (.error (.exn "Unauthorized: Invalid or expired token"), cache', authTrace b ++
            [NetOp.pageGet (settings.graph_api_base_url ++ "/chats/" ++ cid ++ "/messages")]) := by
      rw [fetch_chat_endpoint settings parse cache now exch net (f + 1) cid none hcid,
        fetch_from_endpoint_ok_none parse cache now exch net (f + 1) _ tok cache' b hauth,
        hloop]
      rfl
    rw [get_messages_chat_exn settings parse cache now exch net (f + 1) cid none _
      cache' _ hcid hfetch]
    rfl
  · intro exch net tok cache' b pd hauth hnet
    have hloop : pagesLoop parse none net (f + 1)
        (settings.graph_api_base_url ++ "/chats/" ++ cid ++ "/messages") [] (authTrace b) =
          some (.error (.raised ("Forbidden: Insufficient permissions to access messages. " ++
            "Required permissions: Channel.ReadBasic.All, ChannelMessage.Read.All, " ++
            "or Chat.Read.All")), authTrace b ++
            [NetOp.pageGet (settings.graph_api_base_url ++ "/chats/" ++ cid ++ "/messages")]) := by
      simp [pagesLoop, hnet]
    have hfetch : fetch_graph_messages settings parse cache now exch net (f + 1)
        none none (some cid) none =
          some (.error (.exn ("Forbidden: Insufficient permissions to access messages. " ++
            "Required permissions: Channel.ReadBasic.All, ChannelMessage.Read.All, " ++
            "or Chat.Read.All")), cache', authTrace b ++
            [NetOp.pageGet (settings.graph_api_base_url ++ "/chats/" ++ cid ++ "/messages")]) := by
      rw [fetch_chat_endpoint settings parse cache now exch net (f + 1) cid none hcid,
        fetch_from_endpoint_ok_none parse cache now exch net (f + 1) _ tok cache' b hauth,
        hloop]
      rfl
    rw [get_messages_chat_exn settings parse cache now exch net (f + 1) cid none _
      cache' _ hcid hfetch]
    rfl
  · intro exch net tok cache' b pd hauth hnet
    have hloop : pagesLoop parse none net (f + 1)
        (settings.graph_api_base_url ++ "/chats/" ++ cid ++ "/messages") [] (authTrace b) =
          some (.error (.raised "Not found: Team, channel, or chat does not exist"),
            authTrace b ++
            [NetOp.pageGet (settings.graph_api_base_url ++ "/chats/" ++ cid ++ "/messages")]) := by
      simp [pagesLoop, hnet]
    have hfetch : fetch_graph_messages settings parse cache now exch net (f + 1)
        none none (some cid) none =
          some (.error (.exn
            "Failed to fetch messages: Not found: Team, channel, or chat does not exist"),
            cache', authTrace b ++
            [NetOp.pageGet (settings.graph_api_base_url ++ "/chats/" ++ cid ++ "/messages")]) := by
      rw [fetch_chat_endpoint settings parse cache now exch net (f + 1) cid none hcid,
        fetch_from_endpoint_ok_none parse cache now exch net (f + 1) _ tok cache' b hauth,
        hloop]
      rfl
    rw [get_messages_chat_exn settings parse cache now exch net (f + 1) cid none _
      cache' _ hcid hfetch]
    rfl
  · intro exch net tok cache' b hauth hnet
    have hloop : pagesLoop parse none net (f + 1)
        (settings.graph_api_base_url ++ "/chats/" ++ cid ++ "/messages") [] (authTrace b) =
          some (.error .timeout, authTrace b ++
            [NetOp.pageGet (settings.graph_api_base_url ++ "/chats/" ++ cid ++ "/messages")]) := by
      simp [pagesLoop, hnet]
    have hfetch : fetch_graph_messages settings parse cache now exch net (f + 1)
        none none (some cid) none =
          some (.error (.exn
            "Request timeout: Microsoft Graph API did not respond in time"),
            cache', authTrace b ++
            [NetOp.pageGet (settings.graph_api_base_url ++ "/chats/" ++ cid ++ "/messages")]) := by
      rw [fetch_chat_endpoint settings parse cache now exch net (f + 1) cid none hcid,
        fetch_from_endpoint_ok_none parse cache now exch net (f + 1) _ tok cache' b hauth,
        hloop]
      rfl
    rw [get_messages_chat_exn settings parse cache now exch net (f + 1) cid none _
      cache' _ hcid hfetch]
    rfl
  · intro exch net tok cache' b s pd hauth hnet hs1 hs3 hs4 hrange h1 h2 h3 h4 h5 h6
    have hcond : (decide (s < 200) || decide (300 ≤ s)) = true := by
      rcases hrange with h | h <;> simp [h]
    have hloop : pagesLoop parse none net (f + 1)
        (settings.graph_api_base_url ++ "/chats/" ++ cid ++ "/messages") [] (authTrace b) =
          some (.error (.httpStatus s pd.detail), authTrace b ++
            [NetOp.pageGet (settings.graph_api_base_url ++ "/chats/" ++ cid ++ "/messages")]) := by
      simp [pagesLoop, hnet, hs1, hs3, hs4, hcond]
    have hfetch : fetch_graph_messages settings parse cache now exch net (f + 1)
        none none (some cid) none =
          some (.error (.exn ("Graph API error: " ++ Nat.repr s ++ " - " ++ pd.detail)),
            cache', authTrace b ++
            [NetOp.pageGet (settings.graph_api_base_url ++ "/chats/" ++ cid ++ "/messages")]) := by
      rw [fetch_chat_endpoint settings parse cache now exch net (f + 1) cid none hcid,
        fetch_from_endpoint_ok_none parse cache now exch net (f + 1) _ tok cache' b hauth,
        hloop]
      rfl
    rw [get_messages_chat_exn settings parse cache now exch net (f + 1) cid none _
      cache' _ hcid hfetch]
    simp [map_error_status, map_error_detail, h1, h2, h3, h4, h5, h6]

/-- C2 witness: a credential exchange rejected with HTTP 400 and detail
`invalid_client` surfaces as HTTP 500, and a 401 page surfaces as HTTP
401. -/
theorem C2_error_status_mapping_witness :
    "c1" ≠ "" ∧ (1 : Nat) ≤ 1 ∧
    get_messages sampleSettings sampleParse TokenCache.init 0
        (.httpError 400 "invalid_client") (fun _ => .timeout) 1
        none none (some "c1") none =
      some (.error (500, "Internal server error: " ++
        ("Failed to authenticate: " ++ "Authentication failed: 400 - invalid_client"))) ∧
    get_messages sampleSettings sampleParse TokenCache.init 0 sampleExch
        (fun _ => .ok 401 ⟨none, none, ""⟩) 1 none none (some "c1") none =
      some (.error (401, "Unauthorized: Invalid or expired token")) :=
  ⟨by decide, by decide,
    (C2_error_status_mapping sampleSettings sampleParse TokenCache.init 0 1 "c1"
        (by decide) (by decide)).1
      (.httpError 400 "invalid_client") (fun _ => .timeout) none
      "Authentication failed: 400 - invalid_client" TokenCache.init true
      (by rfl) (by rfl) (by rfl) (by rfl) (by rfl) (by rfl) (by rfl),
    (C2_error_status_mapping sampleSettings sampleParse TokenCache.init 0 1 "c1"
        (by decide) (by decide)).2.1
      sampleExch (fun _ => .ok 401 ⟨none, none, ""⟩) "tok" ⟨some "tok", 3300⟩ true
      ⟨none, none, ""⟩ (by rfl) (by rfl)⟩

/-- C2 counterexample: an authentication failure of the credential
exchange (HTTP 400, `invalid_client`) reaches the boundary as HTTP 500,
not 401 as the claim states. -/
theorem C2_error_status_mapping_counterexample :
    get_messages sampleSettings sampleParse TokenCache.init 0
        (.httpError 400 "invalid_client") (fun _ => .timeout) 1
        none none (some "c1") none =
      some (.error (500,
        "Internal server error: Failed to authenticate: Authentication failed: 400 - invalid_client")) := by
  rfl

/-- C10: a credential stored with `expires_in <= 300` has its expiry at
or before the store time, so at any later time the cache read returns
nothing and the next `get_access_token` call performs an exchange. -/
theorem C10_short_lived_token_never_served (cache : TokenCache) (t now X : Int)
    (tok : String) (r : ExchangeResp) (hX : X ≤ 300) (hnow : t ≤ now) :
    (cache.set_token t tok X).expiry ≤ t ∧
    (cache.set_token t tok X).get_token now = none ∧
    (get_access_token (cache.set_token t tok X) now r).2.2 = true := by
  have hmiss : (cache.set_token t tok X).get_token now = none := by
    simp [TokenCache.get_token, TokenCache.set_token,
      show ¬(now < t + X - 300) from by omega]
  refine ⟨by simp [TokenCache.set_token]; omega, hmiss, ?_⟩
  cases r with
  | success body => cases hb : body.access_token <;> simp [get_access_token, hmiss, hb]
  | httpError s d => simp [get_access_token, hmiss]
  | transportError m => simp [get_access_token, hmiss]

/-- C7: with both `chat_id` and a team/channel parameter truthy, or with
neither `chat_id` nor the full (`team_id`, `channel_id`) pair truthy,
the fetch fails with the corresponding `ValueError` and its network
trace is empty — no exchange and no page GET happened. -/
theorem C7_invalid_target_before_network (settings : Settings) (parse : String → Option Int)
    (cache : TokenCache) (now : Int) (exch : ExchangeResp) (net : String → PageResp)
    (fuel : Nat) (team_id channel_id chat_id since : Option String) :
    (truthy chat_id = true → (truthy team_id = true ∨ truthy channel_id = true) →
      fetch_graph_messages settings parse cache now exch net fuel
          team_id channel_id chat_id since =
        some (.error (.valueError "Cannot specify both chat_id and team_id/channel_id"),
          cache, [])) ∧
    (truthy chat_id = false → (truthy team_id = false ∨ truthy channel_id = false) →
      fetch_graph_messages settings parse cache now exch net fuel
          team_id channel_id chat_id since =
        some (.error (.valueError "Must provide either chat_id OR both team_id and channel_id"),
          cache, [])) := by
  constructor
  · intro h1 h2
    rcases h2 with h2 | h2 <;> simp [fetch_graph_messages, h1, h2]
  · intro h1 h2
    rcases h2 with h2 | h2 <;> simp [fetch_graph_messages, h1, h2]

/-- C7 witness: `chat_id` together with `team_id`, and the all-`None`
case. -/
theorem C7_invalid_target_before_network_witness :
    fetch_graph_messages sampleSettings sampleParse TokenCache.init 0 sampleExch
        (fun _ => .timeout) 1 (some "t1") none (some "c1") none =
      some (.error (.valueError "Cannot specify both chat_id and team_id/channel_id"),
        TokenCache.init, []) ∧
    fetch_graph_messages sampleSettings sampleParse TokenCache.init 0 sampleExch
        (fun _ => .timeout) 1 none none none none =
      some (.error (.valueError "Must provide either chat_id OR both team_id and channel_id"),
        TokenCache.init, []) :=
  ⟨(C7_invalid_target_before_network sampleSettings sampleParse TokenCache.init 0 sampleExch
      (fun _ => .timeout) 1 (some "t1") none (some "c1") none).1 rfl (Or.inl rfl),
   (C7_invalid_target_before_network sampleSettings sampleParse TokenCache.init 0 sampleExch
      (fun _ => .timeout) 1 none none none none).2 rfl (Or.inl rfl)⟩

/-- C5: over a finite chain of pages linked by continuation tokens, a
fetch with no `since` filter returns the pages' concatenation in page
order with in-page order preserved, and the HTTP boundary reports
`count` equal to the aggregate's length. -/
theorem C5_pagination_concatenates (settings : Settings) (parse : String → Option Int)
    (cache : TokenCache) (now : Int) (exch : ExchangeResp) (net : String → PageResp)
    (fuel : Nat) (cid tok : String) (cache' : TokenCache) (b : Bool)
    (pss : List (List Msg)) (hcid : cid ≠ "")
    (hauth : get_access_token cache now exch = (.ok tok, cache', b))
    (hchain : isChain net (settings.graph_api_base_url ++ "/chats/" ++ cid ++ "/messages") pss)
    (hfuel : pss.length ≤ fuel) :
    (∃ ops, fetch_graph_messages settings parse cache now exch net fuel
        none none (some cid) none =
          some (.ok pss.flatten, cache', authTrace b ++ ops) ∧ ops.length = pss.length) ∧
    get_messages settings parse cache now exch net fuel none none (some cid) none =
      some (.ok ⟨pss.flatten.length, pss.flatten⟩) := by
  obtain ⟨ops, hloop, hlen⟩ := pagesLoop_chain parse net pss
    (settings.graph_api_base_url ++ "/chats/" ++ cid ++ "/messages") [] (authTrace b)
    fuel hchain hfuel
  have hfetch : fetch_graph_messages settings parse cache now exch net fuel
      none none (some cid) none =
        some (.ok pss.flatten, cache', authTrace b ++ ops) := by
    rw [fetch_chat_endpoint settings parse cache now exch net fuel cid none hcid,
      fetch_from_endpoint_ok_none parse cache now exch net fuel _ tok cache' b hauth, hloop]
    simp [finish_loop]
  exact ⟨⟨ops, hfetch, hlen⟩,
    get_messages_chat_ok settings parse cache now exch net fuel cid none _ cache' _ hcid hfetch⟩

/-- A remote serving three pages of sizes 2, 3 and 1 linked by
continuation URLs `p2`, `p3`, used by the C5 witness. -/
def net3 : String → PageResp := fun u =>
  if u = ep1 then .ok 200 ⟨some [msgMay, msgJul], some "p2", ""⟩
  else if u = "p2" then .ok 200 ⟨some [msgNoTs, msgBadTs, msgMay], some "p3", ""⟩
  else if u = "p3" then .ok 200 ⟨some [msgJul], none, ""⟩
  else .timeout

/-- C5 witness: three pages of sizes 2, 3, 1 yield the six messages in
order and `count = 6`. -/
theorem C5_pagination_concatenates_witness :
    "c1" ≠ "" ∧
    isChain net3 (sampleSettings.graph_api_base_url ++ "/chats/" ++ "c1" ++ "/messages")
      [[msgMay, msgJul], [msgNoTs, msgBadTs, msgMay], [msgJul]] ∧
    get_messages sampleSettings sampleParse TokenCache.init 0 sampleExch net3 3
        none none (some "c1") none =
      some (.ok ⟨[[msgMay, msgJul], [msgNoTs, msgBadTs, msgMay], [msgJul]].flatten.length,
        [[msgMay, msgJul], [msgNoTs, msgBadTs, msgMay], [msgJul]].flatten⟩) :=
  have hchain : isChain net3
      (sampleSettings.graph_api_base_url ++ "/chats/" ++ "c1" ++ "/messages")
      [[msgMay, msgJul], [msgNoTs, msgBadTs, msgMay], [msgJul]] :=
    ⟨"p2", "", by decide, by rfl, "p3", "", by decide, by rfl, "", by rfl⟩
  ⟨by decide, hchain,
    (C5_pagination_concatenates sampleSettings sampleParse TokenCache.init 0 sampleExch net3 3
      "c1" "tok" ⟨some "tok", 3300⟩ true _ (by decide) rfl hchain (by decide)).2⟩

/-- C6: if any page in the chain answers 401, the fetch fails with the
`Unauthorized: Invalid or expired token` exception — the result carries
no messages at all — and the loop stops right there: exactly the pages
up to and including the 401 page were fetched. -/
theorem C6_page_401_aborts (settings : Settings) (parse : String → Option Int)
    (cache : TokenCache) (now : Int) (exch : ExchangeResp) (net : String → PageResp)
    (fuel : Nat) (cid tok : String) (cache' : TokenCache) (b : Bool)
    (pss : List (List Msg)) (hcid : cid ≠ "")
    (hauth : get_access_token cache now exch = (.ok tok, cache', b))
    (hchain : chainThen401 net
      (settings.graph_api_base_url ++ "/chats/" ++ cid ++ "/messages") pss)
    (hfuel : pss.length + 1 ≤ fuel) :
    ∃ ops, fetch_graph_messages settings parse cache now exch net fuel
        none none (some cid) none =
      some (.error (.exn "Unauthorized: Invalid or expired token"),
        cache', authTrace b ++ ops) ∧ ops.length = pss.length + 1 := by
  obtain ⟨ops, hloop, hlen⟩ := pagesLoop_chain401 parse none net pss
    (settings.graph_api_base_url ++ "/chats/" ++ cid ++ "/messages") [] (authTrace b)
    fuel hchain hfuel
  refine ⟨ops, ?_, hlen⟩
  rw [fetch_chat_endpoint settings parse cache now exch net fuel cid none hcid,
    fetch_from_endpoint_ok_none parse cache now exch net fuel _ tok cache' b hauth, hloop]
  simp only [finish_loop]
  rfl

/-- A remote serving one good page and then a 401, used by the C6
witness. -/
def net401 : String → PageResp := fun u =>
  if u = ep1 then .ok 200 ⟨some [msgMay, msgJul], some "p2", ""⟩
  else if u = "p2" then .ok 401 ⟨none, none, "token expired"⟩
  else .timeout

/-- C6 witness: the second page answers 401; the whole fetch fails with
the unauthorized exception after exactly two page GETs. -/
theorem C6_page_401_aborts_witness :
    "c1" ≠ "" ∧
    chainThen401 net401 (sampleSettings.graph_api_base_url ++ "/chats/" ++ "c1" ++ "/messages")
      [[msgMay, msgJul]] ∧
    (∃ ops, fetch_graph_messages sampleSettings sampleParse TokenCache.init 0 sampleExch net401 3
        none none (some "c1") none =
      some (.error (.exn "Unauthorized: Invalid or expired token"),
        (⟨some "tok", 3300⟩ : TokenCache), authTrace true ++ ops) ∧
      ops.length = [[msgMay, msgJul]].length + 1) :=
  have hchain : chainThen401 net401
      (sampleSettings.graph_api_base_url ++ "/chats/" ++ "c1" ++ "/messages")
      [[msgMay, msgJul]] :=
    ⟨"p2", "", by decide, by rfl, ⟨none, none, "token expired"⟩, by rfl⟩
  ⟨by decide, hchain,
    C6_page_401_aborts sampleSettings sampleParse TokenCache.init 0 sampleExch net401 3
      "c1" "tok" ⟨some "tok", 3300⟩ true [[msgMay, msgJul]] (by decide) rfl hchain (by decide)⟩

/-- C9: a 2xx page whose JSON body lacks `value` contributes zero
messages and does not fail: with a continuation link present the loop
proceeds to the rest of the chain, and with no continuation link the
fetch returns an empty aggregate. -/
theorem C9_missing_value_is_empty_page (settings : Settings) (parse : String → Option Int)
    (cache : TokenCache) (now : Int) (exch : ExchangeResp) (net net' : String → PageResp)
    (fuel : Nat) (cid tok u1 d d' : String) (cache' : TokenCache) (b : Bool)
    (pss : List (List Msg)) (hcid : cid ≠ "")
    (hauth : get_access_token cache now exch = (.ok tok, cache', b))
    (hnet : net (settings.graph_api_base_url ++ "/chats/" ++ cid ++ "/messages") =
      .ok 200 ⟨none, some u1, d⟩)
    (hu1 : u1 ≠ "") (hchain : isChain net u1 pss) (hfuel : pss.length + 1 ≤ fuel)
    (hnet' : net' (settings.graph_api_base_url ++ "/chats/" ++ cid ++ "/messages") =
      .ok 200 ⟨none, none, d'⟩) :
    (∃ ops, fetch_graph_messages settings parse cache now exch net fuel
        none none (some cid) none =
      some (.ok pss.flatten, cache', authTrace b ++ ops)) ∧
    fetch_graph_messages settings parse cache now exch net' fuel
        none none (some cid) none =
      some (.ok [], cache', authTrace b ++
        [NetOp.pageGet (settings.graph_api_base_url ++ "/chats/" ++ cid ++ "/messages")]) := by
  obtain ⟨f, rfl⟩ : ∃ f, fuel = f + 1 := ⟨fuel - 1, by omega⟩
  constructor
  · obtain ⟨ops, hloop, _⟩ := pagesLoop_chain parse net pss u1 []
      (authTrace b ++ [NetOp.pageGet
        (settings.graph_api_base_url ++ "/chats/" ++ cid ++ "/messages")]) f
      hchain (by omega)
    refine ⟨[NetOp.pageGet
      (settings.graph_api_base_url ++ "/chats/" ++ cid ++ "/messages")] ++ ops, ?_⟩
    rw [fetch_chat_endpoint settings parse cache now exch net (f + 1) cid none hcid,
      fetch_from_endpoint_ok_none parse cache now exch net (f + 1) _ tok cache' b hauth]
    simp only [pagesLoop, hnet]
    norm_num [hu1]
    rw [hloop]
    simp [finish_loop, List.append_assoc]
  · rw [fetch_chat_endpoint settings parse cache now exch net' (f + 1) cid none hcid,
      fetch_from_endpoint_ok_none parse cache now exch net' (f + 1) _ tok cache' b hauth]
    simp only [pagesLoop, hnet']
    simp [finish_loop]

/-- A remote whose first page has no `value` field but a continuation
link, used by the C9 witness. -/
def netNoValue : String → PageResp := fun u =>
  if u = ep1 then .ok 200 ⟨none, some "p2", ""⟩
  else if u = "p2" then .ok 200 ⟨some [msgJul], none, ""⟩
  else .timeout

/-- A remote whose only page has neither `value` nor a continuation
link, used by the C9 witness. -/
def netNoValueEnd : String → PageResp := fun u =>
  if u = ep1 then .ok 200 ⟨none, none, ""⟩
  else .timeout

/-- C9 witness: a `value`-less first page followed by a one-message page
yields exactly that message; a `value`-less final page yields `[]`. -/
theorem C9_missing_value_is_empty_page_witness :
    "c1" ≠ "" ∧
    isChain netNoValue "p2" [[msgJul]] ∧
    ((∃ ops, fetch_graph_messages sampleSettings sampleParse TokenCache.init 0 sampleExch
        netNoValue 2 none none (some "c1") none =
      some (.ok [[msgJul]].flatten, (⟨some "tok", 3300⟩ : TokenCache),
        authTrace true ++ ops)) ∧
    fetch_graph_messages sampleSettings sampleParse TokenCache.init 0 sampleExch
        netNoValueEnd 2 none none (some "c1") none =
      some (.ok [], (⟨some "tok", 3300⟩ : TokenCache), authTrace true ++
        [NetOp.pageGet (sampleSettings.graph_api_base_url ++ "/chats/" ++ "c1" ++
          "/messages")])) :=
  ⟨by decide, ⟨"", by rfl⟩,
    C9_missing_value_is_empty_page sampleSettings sampleParse TokenCache.init 0 sampleExch
      netNoValue netNoValueEnd 2 "c1" "tok" "p2" "" "" ⟨some "tok", 3300⟩ true [[msgJul]]
      (by decide) rfl (by rfl) (by decide) ⟨"", by rfl⟩ (by decide) (by rfl)⟩

/-- C10 witness: a token stored at time 0 with `expires_in = 300` is
already stale when read at time 5. -/
theorem C10_short_lived_token_never_served_witness :
    (300 : Int) ≤ 300 ∧ (0 : Int) ≤ 5 ∧
    ((TokenCache.init.set_token 0 "tok" 300).expiry ≤ 0 ∧
    (TokenCache.init.set_token 0 "tok" 300).get_token 5 = none ∧
    (get_access_token (TokenCache.init.set_token 0 "tok" 300) 5 sampleExch).2.2 = true) :=
  ⟨by decide, by decide,
    C10_short_lived_token_never_served TokenCache.init 0 5 300 "tok" sampleExch
      (by decide) (by decide)⟩

end TeamsRelay
